import Mathlib

/-!
Verification development for the job orchestration engine of the
social_recipes repository.  The definitions below are a shallow embedding
of the Python sources `src/ui/database.py`, `src/ui/job_manager.py` and
`src/ui/app.py` (function `process_video_job` and the upload-confirmation
handlers).  The SQLite `recipe_jobs` table is modelled as an association
list from job id to a `Job` row; the `recipe_history` table as a list of
`HistoryEntry` rows; the in-memory `JobManager` dictionaries as
association lists inside `JMState`.
-/

/-- Row of the `recipe_jobs` table (database.py, `init_db`). -/
structure Job where
  url : String
  status : String
  progress : Nat
  current_stage : String
  stage_message : String
  video_title : Option String := none
  error_message : Option String := none
deriving DecidableEq

/-- Row of the `recipe_history` table (database.py, `init_db`).  The
`recipe_data` JSON blob is modelled by `Recipe`; the base64 `thumbnail_data`
column (a pure file-system read in `complete_job`) is not modelled. -/
structure Recipe where
  name : Option String := none
deriving DecidableEq

structure HistoryEntry where
  job_id : String
  url : String
  video_title : Option String
  recipe_name : Option String
  recipe_data : Option Recipe
  thumbnail_path : Option String
  status : String
  error_message : Option String := none
  output_target : Option String := none
deriving DecidableEq

/-- Value of the in-memory `JobManager.active_jobs` dictionary. -/
structure ActiveInfo where
  url : String
  status : String
  progress : Nat
  video_title : Option String := none
deriving DecidableEq

/-- `SELECT * FROM recipe_jobs WHERE id = ?` (database.py `get_job`);
`id` is the primary key, so the first matching row is the row. -/
def get_job (store : List (String × Job)) (job_id : String) : Option Job :=
  (store.find? (fun p => p.1 == job_id)).map (·.2)

/-- `UPDATE recipe_jobs SET ... WHERE id = ?`: applies `f` to every row
whose id matches (the primary key makes it at most one in a real DB). -/
def updateRow (store : List (String × Job)) (job_id : String) (f : Job → Job) :
    List (String × Job) :=
  store.map (fun p => if p.1 == job_id then (p.1, f p.2) else p)

/-- `cursor.rowcount > 0` for an UPDATE with `WHERE id = ?`. -/
def rowFound (store : List (String × Job)) (job_id : String) : Bool :=
  store.any (fun p => p.1 == job_id)

def terminalStatuses : List String := ["completed", "failed", "cancelled"]

/-- `get_active_jobs` (database.py): all rows whose status is not terminal,
`ORDER BY created_at DESC` (rows are kept in creation order, so newest
first is the reverse of the list). -/
def get_active_jobs (store : List (String × Job)) : List (String × Job) :=
  (store.filter (fun p => !(terminalStatuses.contains p.2.status))).reverse

/-- Python truthiness of the optional `video_title` argument
(`if video_title:`): `None` and the empty string are falsy. -/
def truthy : Option String → Bool
  | some t => !t.isEmpty
  | none => false

/-- The row mutation performed by `update_job_progress` (database.py):
two SQL branches, with and without the `video_title` column. -/
def applyProgress (status : String) (progress : Nat) (current_stage : String)
    (stage_message : String) (video_title : Option String) (j : Job) : Job :=
  if truthy video_title then
    { j with status := status, progress := progress, current_stage := current_stage,
             stage_message := stage_message, video_title := video_title }
  else
    { j with status := status, progress := progress, current_stage := current_stage,
             stage_message := stage_message }

/-- `update_job_progress` (database.py): unconditional UPDATE by id,
returning `rowcount > 0`.  There is no guard on the current status. -/
def update_job_progress (store : List (String × Job)) (job_id status : String)
    (progress : Nat) (current_stage stage_message : String)
    (video_title : Option String) : List (String × Job) × Bool :=
  (updateRow store job_id (applyProgress status progress current_stage stage_message video_title),
   rowFound store job_id)

/-- `fail_job` (database.py): sets status to `failed` and the error message. -/
def db_fail_job (store : List (String × Job)) (job_id error_message : String) :
    List (String × Job) × Bool :=
  (updateRow store job_id (fun j => { j with status := "failed", error_message := some error_message }),
   rowFound store job_id)

/-- `cancel_job` (database.py): sets status to `cancelled`; no status guard. -/
def db_cancel_job (store : List (String × Job)) (job_id : String) :
    List (String × Job) × Bool :=
  (updateRow store job_id (fun j => { j with status := "cancelled" }),
   rowFound store job_id)

/-- `complete_job` (database.py): sets status `completed` and progress 100. -/
def db_complete_job (store : List (String × Job)) (job_id : String) :
    List (String × Job) × Bool :=
  (updateRow store job_id (fun j => { j with status := "completed", progress := 100 }),
   rowFound store job_id)

/-- `create_history_entry` (database.py): INSERT INTO recipe_history. -/
def create_history_entry (history : List HistoryEntry) (entry : HistoryEntry) :
    List HistoryEntry :=
  history ++ [entry]

/-- State of a `JobManager` instance together with the two stores it
writes through to (job_manager.py). -/
structure JMState where
  jobs : List (String × Job)
  history : List HistoryEntry
  active_jobs : List (String × ActiveInfo) := []
  cancellation_flags : List (String × Bool) := []
deriving DecidableEq

/-- `JobManager.is_cancelled`: the flag's value if registered, else false. -/
def is_cancelled (s : JMState) (job_id : String) : Bool :=
  match s.cancellation_flags.find? (fun p => p.1 == job_id) with
  | some p => p.2
  | none => false

/-- `JobManager.cancel_job`: sets the cancellation flag if registered, then
runs the database `cancel_job`; the returned Bool is the database result
(row found), regardless of the job's previous status. -/
def cancel_job (s : JMState) (job_id : String) : JMState × Bool :=
  let flags := s.cancellation_flags.map (fun p => if p.1 == job_id then (p.1, true) else p)
  let r := db_cancel_job s.jobs job_id
  ({ s with cancellation_flags := flags, jobs := r.1 }, r.2)

/-- The `status_map` dictionary of `JobManager.update_progress`. -/
def status_map : List (String × String) :=
  [("pending", "pending"), ("info", "downloading"), ("download", "downloading"),
   ("transcribe", "transcribing"), ("visual", "extracting"), ("image", "extracting"),
   ("evaluate", "creating"), ("preview", "awaiting_confirmation"),
   ("upload", "uploading"), ("complete", "completed"), ("error", "failed"),
   ("cancelled", "cancelled")]

/-- `status_map.get(stage, 'processing')`. -/
def statusFromStage (stage : String) : String :=
  ((status_map.find? (fun p => p.1 == stage)).map (·.2)).getD "processing"

/-- `JobManager.update_progress`: returns unchanged if the in-memory
cancellation flag is set; otherwise maps the stage to a status, writes
through to the job store, and updates the in-memory cache. -/
def update_progress (s : JMState) (job_id stage message : String) (percent : Nat)
    (video_title : Option String := none) : JMState :=
  if is_cancelled s job_id then s
  else
    let status := statusFromStage stage
    let jobs := (update_job_progress s.jobs job_id status percent stage message video_title).1
    let actives := s.active_jobs.map (fun p =>
      if p.1 == job_id then
        (p.1,
          if truthy video_title then
            { p.2 with status := status, progress := percent, video_title := video_title }
          else
            { p.2 with status := status, progress := percent })
      else p)
    { s with jobs := jobs, active_jobs := actives }

/-- The history row built by `JobManager.complete_job` (status `success`). -/
def mkSuccessEntry (job_id : String) (job : Job) (recipe_data : Recipe)
    (image_path : Option String) (output_target : String) : HistoryEntry :=
  { job_id := job_id, url := job.url, video_title := job.video_title,
    recipe_name := recipe_data.name, recipe_data := some recipe_data,
    thumbnail_path := image_path, status := "success",
    error_message := none, output_target := some output_target }

/-- The history row built by `JobManager.fail_job` (status `failed`). -/
def mkFailedEntry (job_id : String) (job : Job) (error_message : String) : HistoryEntry :=
  { job_id := job_id, url := job.url, video_title := job.video_title,
    recipe_name := none, recipe_data := none, thumbnail_path := none,
    status := "failed", error_message := some error_message, output_target := none }

/-- `JobManager.complete_job`: only guard is `get_job` returning a row;
writes one history entry and marks the job completed. -/
def complete_job (s : JMState) (job_id : String) (recipe_data : Recipe)
    (image_path : Option String) (output_target : String) : JMState :=
  match get_job s.jobs job_id with
  | none => s
  | some job =>
    { s with
      history := create_history_entry s.history
        (mkSuccessEntry job_id job recipe_data image_path output_target),
      jobs := (db_complete_job s.jobs job_id).1 }

/-- `JobManager.fail_job`: only guard is `get_job` returning a row;
writes one history entry and marks the job failed. -/
def fail_job (s : JMState) (job_id error_message : String) : JMState :=
  match get_job s.jobs job_id with
  | none => s
  | some job =>
    { s with
      history := create_history_entry s.history (mkFailedEntry job_id job error_message),
      jobs := (db_fail_job s.jobs job_id error_message).1 }

def restartMessage : String := "Server was restarted during processing. Please retry."

/-- The status tuple tested by `JobManager._restore_active_jobs`. -/
def staleStatuses : List String :=
  ["downloading", "transcribing", "extracting", "creating", "uploading"]

/-- One iteration of the `_restore_active_jobs` loop: a job whose status is
in the stale tuple is failed in the database; any other active job is put
back in the in-memory `active_jobs` cache (with only url/status/progress). -/
def restoreStep (s : JMState) (p : String × Job) : JMState :=
  if staleStatuses.contains p.2.status then
    { s with jobs := (db_fail_job s.jobs p.1 restartMessage).1 }
  else
    { s with active_jobs := s.active_jobs ++
        [(p.1, { url := p.2.url, status := p.2.status, progress := p.2.progress })] }

/-- `JobManager._restore_active_jobs`: reads the active jobs once, then
processes each in turn. -/
def restore_active_jobs (s : JMState) : JMState :=
  (get_active_jobs s.jobs).foldl restoreStep s

/-- Events of the `wrapped_process` closure in `JobManager.start_job`. -/
inductive SchedEv where
  | acquire
  | invokeBody
  | release
  | cleanup
deriving DecidableEq

/-- `wrapped_process` (job_manager.py `start_job`): acquire the semaphore;
inside `try`, return early if the job is cancelled, else run the body
(which may raise); the `finally` block releases the permit and cleans up
in every case.  Returns the event trace and whether an exception
propagates out of the body. -/
def wrapped_process (cancelled body_raises : Bool) : List SchedEv × Bool :=
  if cancelled then
    ([SchedEv.acquire, SchedEv.release, SchedEv.cleanup], false)
  else
    ([SchedEv.acquire, SchedEv.invokeBody, SchedEv.release, SchedEv.cleanup], body_raises)

/-- Persisted PendingUpload row as observed by `get_pending_upload` inside
the wait loop of `process_video_job` (app.py); only the fields the loop
reads are modelled. -/
structure PendingDB where
  status : String
  selected_image_index : Option Int := none
deriving DecidableEq

/-- The in-memory `pending_uploads[upload_id]` dictionary entry (app.py);
only the fields the post-wait code reads are modelled.  `confirmed` starts
as Python `None`; the `event` is modelled by the `eventAt` observation. -/
structure PendingMem where
  confirmed : Option Bool := none
  selected_image_index : Int
deriving DecidableEq

/-- `handle_confirm_upload` (app.py WebSocket handler): marks the entry
confirmed, overrides the selected image index when one is supplied, and
sets the event (the event is the `eventAt` observation). -/
def handle_confirm_upload (m : PendingMem) (selected_image_index : Option Int) : PendingMem :=
  { m with confirmed := some true,
           selected_image_index :=
             match selected_image_index with
             | some i => i
             | none => m.selected_image_index }

/-- `handle_cancel_upload` (app.py WebSocket handler). -/
def handle_cancel_upload (m : PendingMem) : PendingMem :=
  { m with confirmed := some false }

/-- Modelled from the spec: `cleanup_expired_pending_uploads` is imported by
app.py from the database module but is absent from src/ui/database.py.
Spec section 3 gives PendingUpload the status enum
`pending, confirmed, cancelled, expired` and the lifecycle "resolved
exactly once (confirm, cancel, or expire)", so the cleanup resolves a
`pending` record past its absolute expiry time by setting its status to
`expired` (the record itself is deleted only once the owning pipeline has
consumed the resolution). -/
def cleanup_expired_pending_uploads (rec : PendingDB) (now expires_at : Nat) : PendingDB :=
  if rec.status == "pending" && decide (expires_at ≤ now) then
    { rec with status := "expired" }
  else rec

/-- Mutable locals of the confirmation wait loop in `process_video_job`. -/
structure WaitState where
  elapsed : Nat
  confirmed : Bool
  db_confirmed : Bool
  selected_idx : Int
deriving DecidableEq

/-- How the wait loop of `process_video_job` ended: a `break`, the
job-cancellation `return` inside the loop, or the `while` condition
becoming false (timeout). -/
inductive WaitExit where
  | broke (st : WaitState)
  | earlyReturn (st : WaitState)
  | timedOut (st : WaitState)
deriving DecidableEq

def timeout_seconds : Nat := 300

/-- One-second-granularity model of the wait loop of `process_video_job`
(app.py).  `eventAt t` is whether `confirm_event` is observed set during
iteration `t`; `dbAt t` is what `get_pending_upload` returns at iteration
`t`; `cancelAt t` is `jm.is_cancelled` at elapsed count `t`.  The fuel is
`timeout_seconds - elapsed`. -/
def waitLoopAux (eventAt : Nat → Bool) (dbAt : Nat → Option PendingDB)
    (cancelAt : Nat → Bool) (best_image_index : Int) :
    Nat → WaitState → WaitExit
  | 0, st => WaitExit.timedOut st
  | fuel + 1, st =>
    if eventAt st.elapsed then WaitExit.broke { st with confirmed := true }
    else
      match dbAt st.elapsed with
      | some db =>
        if db.status == "confirmed" then
          WaitExit.broke { st with confirmed := true, db_confirmed := true,
                                   selected_idx := db.selected_image_index.getD best_image_index }
        else if db.status == "cancelled" then
          WaitExit.broke { st with confirmed := true }
        else if db.status == "expired" then
          WaitExit.broke st
        else
          let st1 : WaitState := { st with elapsed := st.elapsed + 1 }
          if cancelAt st1.elapsed then WaitExit.earlyReturn st1
          else waitLoopAux eventAt dbAt cancelAt best_image_index fuel st1
      | none =>
        let st1 : WaitState := { st with elapsed := st.elapsed + 1 }
        if cancelAt st1.elapsed then WaitExit.earlyReturn st1
        else waitLoopAux eventAt dbAt cancelAt best_image_index fuel st1

/-- The full wait loop: `elapsed = 0`, `confirmed = db_confirmed = False`,
`selected_idx = best_image_index`. -/
def waitLoop (eventAt : Nat → Bool) (dbAt : Nat → Option PendingDB)
    (cancelAt : Nat → Bool) (best_image_index : Int) : WaitExit :=
  waitLoopAux eventAt dbAt cancelAt best_image_index timeout_seconds
    { elapsed := 0, confirmed := false, db_confirmed := false,
      selected_idx := best_image_index }

/-- How the confirmation section of `process_video_job` continues after
the wait: return early (job cancelled), fail the job with the timeout
message, finalize the cancelled-by-user path, or proceed to upload with
the chosen image. -/
inductive GateOutcome where
  | earlyReturn
  | failTimeout
  | cancelledByUser
  | proceed (image_path : Option String) (selected_idx : Int)
deriving DecidableEq

structure GateResult where
  outcome : GateOutcome
  pending_deleted : Bool
deriving DecidableEq

/-- The code after the wait loop in `process_video_job` (app.py): it
deletes the PendingUpload row and pops the in-memory entry first, then
branches on timeout, on the confirmation source, and on the selected
image index.  `dbEnd` is what the final `get_pending_upload` returns and
`memPop` what `pending_uploads.pop` returns. -/
def gatePost (st : WaitState) (image_candidates : List String)
    (image_path : Option String) (dbEnd : Option PendingDB)
    (memPop : Option PendingMem) : GateResult :=
  if !st.confirmed && decide (timeout_seconds ≤ st.elapsed) then
    { outcome := GateOutcome.failTimeout, pending_deleted := true }
  else
    let was_confirmed :=
      if st.db_confirmed then
        match dbEnd with
        | some d => d.status == "confirmed"
        | none => false
      else
        match memPop with
        | some m => m.confirmed == some true
        | none => false
    if !was_confirmed then
      { outcome := GateOutcome.cancelledByUser, pending_deleted := true }
    else
      let selected_idx :=
        if !st.db_confirmed then
          match memPop with
          | some m => m.selected_image_index
          | none => st.selected_idx
        else st.selected_idx
      let chosen_path :=
        if !image_candidates.isEmpty && decide (0 ≤ selected_idx)
            && decide (selected_idx < (image_candidates.length : Int)) then
          some (image_candidates.getD selected_idx.toNat "")
        else image_path
      { outcome := GateOutcome.proceed chosen_path selected_idx, pending_deleted := true }

/-- The whole confirmation gate: run the wait loop, then the post-wait
code.  Every exit path of the source deletes the PendingUpload row (lines
1069 and 1075 of app.py), recorded in `pending_deleted`. -/
def confirmationGate (eventAt : Nat → Bool) (dbAt : Nat → Option PendingDB)
    (cancelAt : Nat → Bool) (best_image_index : Int)
    (image_candidates : List String) (image_path : Option String)
    (dbEnd : Option PendingDB) (memPop : Option PendingMem) : GateResult :=
  match waitLoop eventAt dbAt cancelAt best_image_index with
  | WaitExit.earlyReturn _ => { outcome := GateOutcome.earlyReturn, pending_deleted := true }
  | WaitExit.broke st => gatePost st image_candidates image_path dbEnd memPop
  | WaitExit.timedOut st => gatePost st image_candidates image_path dbEnd memPop

/-- The confirmation gate together with its effect on the job manager
state: the timeout outcome calls `jm.fail_job` with the fixed message and
the cancelled-by-user outcome calls `jm.update_progress` with stage
`cancelled` (app.py lines 1080-1101). -/
def runGate (s : JMState) (job_id : String) (eventAt : Nat → Bool)
    (dbAt : Nat → Option PendingDB) (cancelAt : Nat → Bool)
    (best_image_index : Int) (image_candidates : List String)
    (image_path : Option String) (dbEnd : Option PendingDB)
    (memPop : Option PendingMem) : JMState × GateResult :=
  let r := confirmationGate eventAt dbAt cancelAt best_image_index
    image_candidates image_path dbEnd memPop
  match r.outcome with
  | GateOutcome.failTimeout => (fail_job s job_id "Upload confirmation timed out", r)
  | GateOutcome.cancelledByUser =>
      (update_progress s job_id "cancelled" "Upload cancelled by user" 100 none, r)
  | _ => (s, r)

/-- `upload_targets` of `process_video_job` (app.py lines 1116-1124). -/
def uploadTargets (export_to_both : Bool) (output_target : String) : List String :=
  if export_to_both then ["tandoor", "mealie"] else [output_target]

/-- The per-target export loop of `process_video_job`: for each target the
`try` block appends `(target, None)` on success or `(target, message)` on
a caught exception; a target that is neither `tandoor` nor `mealie`
appends nothing.  `exc t` is the exception message raised for target `t`
(`none` for success). -/
def exportResults (exc : String → Option String) : List String → List (String × Option String)
  | [] => []
  | t :: ts =>
      (if t == "tandoor" || t == "mealie" then [(t, exc t)] else []) ++ exportResults exc ts

/-- The upload section of `process_video_job` (app.py lines 1116-1168):
determine the targets, run the exports, then fail the job only when every
result failed, otherwise complete it with the succeeded targets. -/
def finalizeUploads (s : JMState) (job_id : String) (recipe_data : Recipe)
    (image_path : Option String) (export_to_both : Bool) (output_target : String)
    (exc : String → Option String) : JMState :=
  let targets := uploadTargets export_to_both output_target
  let s1 := if export_to_both then
      update_progress s job_id "upload" "Uploading to Tandoor and Mealie..." 95 none
    else s
  let results := exportResults exc targets
  let final_target := if export_to_both then String.intercalate ", " targets else output_target
  let failed := results.filter (fun r => r.2.isSome)
  if !failed.isEmpty && decide (failed.length = targets.length) then
    fail_job s1 job_id ("All uploads failed: " ++
      String.intercalate "; " (failed.map (fun r => r.1 ++ ": " ++ r.2.getD "")))
  else if !failed.isEmpty then
    let success_targets := (results.filter (fun r => r.2.isNone)).map (·.1)
    let s2 := complete_job s1 job_id recipe_data image_path
      (String.intercalate ", " success_targets)
    update_progress s2 job_id "complete"
      ("Recipe uploaded to " ++ String.intercalate ", " success_targets ++ ". Failed: " ++
        String.intercalate "; " (failed.map (fun r => r.1 ++ ": " ++ r.2.getD ""))) 100 none
  else
    let s2 := complete_job s1 job_id recipe_data image_path final_target
    update_progress s2 job_id "complete"
      ("Recipe uploaded successfully to " ++ final_target ++ "!") 100 none

/-- The job status enum of spec section 4.1, transcribed from the spec for
claim C10 (the stored value `processing` is not among them). -/
def specStatusEnum : List String :=
  ["pending", "downloading", "transcribing", "extracting", "creating",
   "awaiting_confirmation", "uploading", "completed", "failed", "cancelled"]

theorem updateRow_fst (job_id : String) (f : Job → Job) (p : String × Job) :
    (if p.1 == job_id then (p.1, f p.2) else p).1 = p.1 := by
  split <;> rfl

theorem find?_updateRow (store : List (String × Job)) (job_id k : String) (f : Job → Job) :
    (updateRow store job_id f).find? (fun p => p.1 == k) =
      (store.find? (fun p => p.1 == k)).map
        (fun p => if p.1 == job_id then (p.1, f p.2) else p) := by
  unfold updateRow
  rw [List.find?_map]
  have hpred : ((fun p : String × Job => p.1 == k) ∘
      (fun p => if p.1 == job_id then (p.1, f p.2) else p)) =
      (fun p : String × Job => p.1 == k) := by
    funext p
    simp only [Function.comp_apply, updateRow_fst]
  rw [hpred]

theorem get_job_updateRow_self (store : List (String × Job)) (job_id : String) (f : Job → Job) :
    get_job (updateRow store job_id f) job_id = (get_job store job_id).map f := by
  unfold get_job
  rw [find?_updateRow]
  cases hf : store.find? (fun p => p.1 == job_id) with
  | none => rfl
  | some q =>
    have hp : (q.1 == job_id) = true :=
      List.find?_some (p := fun r : String × Job => r.1 == job_id) hf
    have hq : q.1 = job_id := by simpa using hp
    simp [hq]

theorem get_job_updateRow_ne (store : List (String × Job)) (job_id other : String)
    (f : Job → Job) (h : job_id ≠ other) :
    get_job (updateRow store other f) job_id = get_job store job_id := by
  unfold get_job
  rw [find?_updateRow]
  cases hf : store.find? (fun p => p.1 == job_id) with
  | none => rfl
  | some q =>
    have hp : (q.1 == job_id) = true :=
      List.find?_some (p := fun r : String × Job => r.1 == job_id) hf
    have hq : q.1 = job_id := by simpa using hp
    simp [hq, h]

theorem rowFound_updateRow (store : List (String × Job)) (job_id other : String)
    (f : Job → Job) :
    rowFound (updateRow store other f) job_id = rowFound store job_id := by
  unfold rowFound updateRow
  rw [List.any_map]
  congr 1
  funext p
  simp only [Function.comp_apply, updateRow_fst]

theorem get_job_mem_of_nodup (store : List (String × Job)) (job_id : String) (j : Job)
    (hnd : (store.map Prod.fst).Nodup) (hm : (job_id, j) ∈ store) :
    get_job store job_id = some j := by
  induction store with
  | nil => cases hm
  | cons p t ih =>
    rcases List.mem_cons.mp hm with h | h
    · cases h
      simp [get_job, List.find?]
    · have hkey : job_id ∈ t.map Prod.fst := List.mem_map.mpr ⟨(job_id, j), h, rfl⟩
      have hp1 : p.1 ≠ job_id := by
        intro he
        exact (List.nodup_cons.mp (by simpa using hnd)).1 (he ▸ hkey)
      have hb : (p.1 == job_id) = false := by simp [hp1]
      simp only [get_job, List.find?, hb]
      exact ih (List.nodup_cons.mp (by simpa using hnd)).2 h

theorem mem_of_get_job (store : List (String × Job)) (job_id : String) (j : Job)
    (h : get_job store job_id = some j) : (job_id, j) ∈ store := by
  unfold get_job at h
  cases hf : store.find? (fun p => p.1 == job_id) with
  | none => simp [hf] at h
  | some p =>
    have hp := List.find?_some hf
    have hmem := List.mem_of_find?_eq_some hf
    simp [hf] at h
    have : p.1 = job_id := by simpa using hp
    cases p
    cases h
    cases this
    exact hmem

theorem update_progress_history (s : JMState) (job_id stage message : String)
    (percent : Nat) (video_title : Option String) :
    (update_progress s job_id stage message percent video_title).history = s.history := by
  unfold update_progress
  split <;> rfl

theorem update_progress_flags (s : JMState) (job_id stage message : String)
    (percent : Nat) (video_title : Option String) :
    (update_progress s job_id stage message percent video_title).cancellation_flags =
      s.cancellation_flags := by
  unfold update_progress
  split <;> rfl

theorem get_job_update_progress (s : JMState) (job_id stage message : String)
    (percent : Nat) (video_title : Option String) :
    get_job (update_progress s job_id stage message percent video_title).jobs job_id =
      if is_cancelled s job_id then get_job s.jobs job_id
      else (get_job s.jobs job_id).map
        (applyProgress (statusFromStage stage) percent stage message video_title) := by
  cases h : is_cancelled s job_id <;>
    simp [update_progress, h, update_job_progress, get_job_updateRow_self]

theorem is_cancelled_update_progress (s : JMState) (job_id stage message : String)
    (percent : Nat) (video_title : Option String) (k : String) :
    is_cancelled (update_progress s job_id stage message percent video_title) k =
      is_cancelled s k := by
  unfold is_cancelled
  rw [update_progress_flags]

theorem complete_job_history (s : JMState) (job_id : String) (r : Recipe)
    (img : Option String) (tgt : String) :
    (complete_job s job_id r img tgt).history =
      s.history ++ (match get_job s.jobs job_id with
        | some job => [mkSuccessEntry job_id job r img tgt]
        | none => []) := by
  unfold complete_job
  cases h : get_job s.jobs job_id <;> simp [h, create_history_entry]

theorem get_job_complete_job (s : JMState) (job_id : String) (r : Recipe)
    (img : Option String) (tgt : String) :
    get_job (complete_job s job_id r img tgt).jobs job_id =
      (get_job s.jobs job_id).map
        (fun j => { j with status := "completed", progress := 100 }) := by
  unfold complete_job
  cases h : get_job s.jobs job_id with
  | none => simp [h]
  | some job => simp [h, db_complete_job, get_job_updateRow_self]

theorem complete_job_flags (s : JMState) (job_id : String) (r : Recipe)
    (img : Option String) (tgt : String) :
    (complete_job s job_id r img tgt).cancellation_flags = s.cancellation_flags := by
  unfold complete_job
  cases h : get_job s.jobs job_id <;> simp [h]

theorem is_cancelled_complete_job (s : JMState) (job_id : String) (r : Recipe)
    (img : Option String) (tgt : String) (k : String) :
    is_cancelled (complete_job s job_id r img tgt) k = is_cancelled s k := by
  unfold is_cancelled
  rw [complete_job_flags]

theorem fail_job_history (s : JMState) (job_id msg : String) :
    (fail_job s job_id msg).history =
      s.history ++ (match get_job s.jobs job_id with
        | some job => [mkFailedEntry job_id job msg]
        | none => []) := by
  unfold fail_job
  cases h : get_job s.jobs job_id <;> simp [h, create_history_entry]

theorem get_job_fail_job (s : JMState) (job_id msg : String) :
    get_job (fail_job s job_id msg).jobs job_id =
      (get_job s.jobs job_id).map
        (fun j => { j with status := "failed", error_message := some msg }) := by
  unfold fail_job
  cases h : get_job s.jobs job_id with
  | none => simp [h]
  | some job => simp [h, db_fail_job, get_job_updateRow_self]

theorem cancel_job_snd (s : JMState) (job_id : String) :
    (cancel_job s job_id).2 = rowFound s.jobs job_id := rfl

theorem cancel_job_history (s : JMState) (job_id : String) :
    (cancel_job s job_id).1.history = s.history := rfl

theorem get_job_cancel_job (s : JMState) (job_id : String) :
    get_job (cancel_job s job_id).1.jobs job_id =
      (get_job s.jobs job_id).map (fun j => { j with status := "cancelled" }) := by
  simp [cancel_job, db_cancel_job, get_job_updateRow_self]

theorem setFlag_idem (flags : List (String × Bool)) (job_id : String) :
    ((flags.map (fun p => if p.1 == job_id then (p.1, true) else p)).map
      (fun p => if p.1 == job_id then (p.1, true) else p)) =
    flags.map (fun p => if p.1 == job_id then (p.1, true) else p) := by
  rw [List.map_map]
  congr 1
  funext p
  by_cases h : p.1 = job_id <;> simp [Function.comp, h]

theorem updateRow_cancel_idem (store : List (String × Job)) (job_id : String) :
    updateRow (updateRow store job_id (fun j => { j with status := "cancelled" })) job_id
        (fun j => { j with status := "cancelled" }) =
      updateRow store job_id (fun j => { j with status := "cancelled" }) := by
  unfold updateRow
  rw [List.map_map]
  congr 1
  funext p
  by_cases h : p.1 = job_id <;> simp [Function.comp, h]

/-- Concrete store for C1: a job whose stored status is already terminal
(`completed`) and whose cancellation flag is not registered. -/
def c1Job : Job :=
  { url := "http://v/1", status := "completed", progress := 100,
    current_stage := "complete", stage_message := "done" }

def c1State : JMState := { jobs := [("j1", c1Job)], history := [] }

/-- C1 counterexample: the claim "a terminal stored status is never
overwritten by a later progress update" is false on the code: a call to
`update_progress` on a job stored as `completed`, with no cancellation
flag set, overwrites the status with `downloading`. -/
theorem c1_terminal_status_overwritten :
    c1Job.status = "completed" ∧
    (get_job (update_progress c1State "j1" "download" "Downloading video..." 20 none).jobs
        "j1").map Job.status = some "downloading" :=
  ⟨rfl, rfl⟩

/-- C1 (amended): the only protection in UpdateProgress is the in-memory
cancellation flag: when the job's flag is set the call leaves the whole
state, in particular a terminal stored status, unchanged; without the
flag a terminal stored status can be overwritten. -/
theorem c1_update_progress_flagged_noop (s : JMState) (job_id stage message : String)
    (percent : Nat) (video_title : Option String)
    (h : is_cancelled s job_id = true) :
    update_progress s job_id stage message percent video_title = s := by
  unfold update_progress
  simp [h]

def c1wState : JMState :=
  { jobs := [("j1", { url := "u", status := "cancelled", progress := 50,
                      current_stage := "transcribe", stage_message := "m" })],
    history := [], cancellation_flags := [("j1", true)] }

theorem c1_update_progress_flagged_noop_witness :
    is_cancelled c1wState "j1" = true ∧
    update_progress c1wState "j1" "transcribe" "msg" 60 none = c1wState :=
  ⟨by decide,
   c1_update_progress_flagged_noop c1wState "j1" "transcribe" "msg" 60 none (by decide)⟩

def c3State : JMState :=
  { jobs := [("j3", { url := "http://v/3", status := "completed", progress := 100,
                      current_stage := "complete", stage_message := "done" })],
    history := [] }

/-- C3 counterexample: the claim that Cancel returns false on an
already-terminal job is false on the code: cancelling a job stored as
`completed` returns true and overwrites the status with `cancelled`. -/
theorem c3_cancel_terminal_returns_true :
    (get_job c3State.jobs "j3").map Job.status = some "completed" ∧
    (cancel_job c3State "j3").2 = true ∧
    (get_job (cancel_job c3State "j3").1.jobs "j3").map Job.status = some "cancelled" :=
  ⟨rfl, rfl, rfl⟩

/-- C3 (amended): Cancel returns false exactly when the job id is absent
from the store; otherwise it sets the job's status to `cancelled` — even
over a terminal status — and returns true; repeating the call returns the
same result and the same state (idempotence). -/
theorem c3_cancel_job_spec (s : JMState) (job_id : String) :
    (cancel_job s job_id).2 = rowFound s.jobs job_id ∧
    get_job (cancel_job s job_id).1.jobs job_id =
      (get_job s.jobs job_id).map (fun j => { j with status := "cancelled" }) ∧
    cancel_job (cancel_job s job_id).1 job_id = cancel_job s job_id := by
  refine ⟨rfl, get_job_cancel_job s job_id, ?_⟩
  unfold cancel_job db_cancel_job
  simp only [Prod.mk.injEq]
  refine ⟨?_, rowFound_updateRow s.jobs job_id job_id _⟩
  congr 1
  · exact updateRow_cancel_idem s.jobs job_id
  · exact setFlag_idem s.cancellation_flags job_id

def c4Job : Job := { url := "http://v/4", status := "completed", progress := 100,
                     current_stage := "complete", stage_message := "done" }
def c4Entry : HistoryEntry := mkSuccessEntry "j4" c4Job { name := some "Pasta" } none "tandoor"
def c4State : JMState := { jobs := [("j4", c4Job)], history := [c4Entry] }

/-- C4 counterexample: the claim that CompleteJob/FailJob are no-ops on an
already-terminal job is false on the code: a second CompleteJob on a job
stored as `completed` (still present in the store) writes a second
history entry. -/
theorem c4_complete_terminal_not_noop :
    c4Job.status = "completed" ∧
    c4State.history.length = 1 ∧
    (complete_job c4State "j4" { name := some "Pasta" } none "tandoor").history.length = 2 :=
  ⟨rfl, rfl, rfl⟩

/-- C4 (amended): each call to CompleteJob or FailJob on a job id present
in the store appends exactly one HistoryEntry and sets the terminal
status; the only no-op case is a job id absent from the store (the guard
checks existence, not terminality). -/
theorem c4_terminal_variants_spec (s : JMState) (job_id : String) (r : Recipe)
    (img : Option String) (tgt msg : String) :
    (get_job s.jobs job_id = none →
      complete_job s job_id r img tgt = s ∧ fail_job s job_id msg = s) ∧
    (∀ job, get_job s.jobs job_id = some job →
      (complete_job s job_id r img tgt).history =
          s.history ++ [mkSuccessEntry job_id job r img tgt] ∧
      (get_job (complete_job s job_id r img tgt).jobs job_id).map Job.status =
          some "completed" ∧
      (fail_job s job_id msg).history = s.history ++ [mkFailedEntry job_id job msg] ∧
      (get_job (fail_job s job_id msg).jobs job_id).map Job.status = some "failed") := by
  constructor
  · intro h
    constructor
    · unfold complete_job
      simp [h]
    · unfold fail_job
      simp [h]
  · intro job h
    refine ⟨?_, ?_, ?_, ?_⟩
    · rw [complete_job_history, h]
    · rw [get_job_complete_job, h]
      rfl
    · rw [fail_job_history, h]
    · rw [get_job_fail_job, h]
      rfl

def c4wJob : Job := { url := "u4", status := "creating", progress := 80,
                      current_stage := "evaluate", stage_message := "m" }
def c4wState : JMState := { jobs := [("j4", c4wJob)], history := [] }
def c4wEmpty : JMState := { jobs := [], history := [] }

theorem c4_terminal_variants_spec_witness :
    ((complete_job c4wState "j4" { name := some "Soup" } none "mealie").history =
        c4wState.history ++ [mkSuccessEntry "j4" c4wJob { name := some "Soup" } none "mealie"]) ∧
    (get_job (fail_job c4wState "j4" "boom").jobs "j4").map Job.status = some "failed" ∧
    complete_job c4wEmpty "zz" { name := some "Soup" } none "mealie" = c4wEmpty := by
  have h1 := (c4_terminal_variants_spec c4wState "j4" { name := some "Soup" } none "mealie"
    "boom").2 c4wJob (by decide)
  have h2 := (c4_terminal_variants_spec c4wEmpty "zz" { name := some "Soup" } none "mealie"
    "boom").1 (by decide)
  exact ⟨h1.1, h1.2.2.2, h2.1⟩

def c5Job : Job := { url := "http://v/5", status := "transcribing", progress := 40,
                     current_stage := "transcribe", stage_message := "Transcribing audio..." }
def c5State : JMState := { jobs := [("j5", c5Job)], history := [],
                           cancellation_flags := [("j5", false)] }

/-- C5 counterexample: a started, non-terminal job that is cancelled
reaches terminal status `cancelled` and leaves the active job set, yet
the history store remains empty: no HistoryEntry exists for it. -/
theorem c5_cancelled_job_has_no_history :
    c5Job.status = "transcribing" ∧
    (cancel_job c5State "j5").2 = true ∧
    (get_job (cancel_job c5State "j5").1.jobs "j5").map Job.status = some "cancelled" ∧
    get_active_jobs (cancel_job c5State "j5").1.jobs = [] ∧
    (cancel_job c5State "j5").1.history = [] :=
  ⟨rfl, rfl, rfl, rfl, rfl⟩

/-- C5 (amended): only CompleteJob and FailJob write history entries;
Cancel leaves the history store untouched while removing the job from the
active set, so a job that ends `cancelled` via Cancel has no
HistoryEntry. -/
theorem c5_cancel_writes_no_history (s : JMState) (job_id : String) :
    (cancel_job s job_id).1.history = s.history ∧
    (get_active_jobs (cancel_job s job_id).1.jobs).all
      (fun q => !(q.1 == job_id)) = true := by
  refine ⟨rfl, ?_⟩
  rw [List.all_eq_true]
  intro q hq
  have hq' : q ∈ (cancel_job s job_id).1.jobs ∧
      (!(terminalStatuses.contains q.2.status)) = true := by
    have := List.mem_reverse.mp hq
    exact List.mem_filter.mp this
  rcases hq' with ⟨hmem, hpred⟩
  have hmem2 : q ∈ updateRow s.jobs job_id (fun j => { j with status := "cancelled" }) := hmem
  rcases List.mem_map.mp hmem2 with ⟨p, hp, hgq⟩
  by_cases h : p.1 = job_id
  · exfalso
    rw [← hgq] at hpred
    simp [h, terminalStatuses] at hpred
  · rw [← hgq]
    simp [h]

/-- C8: in `wrapped_process`, if the cancellation flag was set the body is
never invoked (it is invoked exactly when the flag was clear), and on
every path — cancelled, normal return, or a raising body — the permit is
acquired once and released exactly once. -/
theorem c8_wrapped_process_spec :
    ∀ (cancelled body_raises : Bool),
      (SchedEv.invokeBody ∈ (wrapped_process cancelled body_raises).1 ↔ cancelled = false) ∧
      (wrapped_process cancelled body_raises).1.count SchedEv.acquire = 1 ∧
      (wrapped_process cancelled body_raises).1.count SchedEv.release = 1 := by
  decide

/-- C10: a stage outside the fixed mapping yields the stored status
`processing`, a value outside the spec's section 4.1 status enum, and an
effective UpdateProgress (job present, flag clear) writes it to the
store. -/
theorem c10_unknown_stage_processing (s : JMState) (job_id stage message : String)
    (percent : Nat) (job : Job)
    (hstage : stage ∉ ["pending", "info", "download", "transcribe", "visual", "image",
      "evaluate", "preview", "upload", "complete", "error", "cancelled"])
    (hflag : is_cancelled s job_id = false)
    (hjob : get_job s.jobs job_id = some job) :
    statusFromStage stage = "processing" ∧
    "processing" ∉ specStatusEnum ∧
    (get_job (update_progress s job_id stage message percent none).jobs job_id).map
      Job.status = some "processing" := by
  have hfind : status_map.find? (fun p => p.1 == stage) = none := by
    rw [List.find?_eq_none]
    intro p hp hbeq
    have h1 : p.1 = stage := by simpa using hbeq
    apply hstage
    rw [← h1]
    simpa [status_map] using List.mem_map_of_mem Prod.fst hp
  have hsfs : statusFromStage stage = "processing" := by
    simp [statusFromStage, hfind]
  refine ⟨hsfs, by decide, ?_⟩
  rw [get_job_update_progress, hflag]
  simp [hjob, applyProgress, truthy, hsfs]

def c10State : JMState :=
  { jobs := [("j10", { url := "u", status := "creating", progress := 85,
                       current_stage := "evaluate", stage_message := "m" })],
    history := [] }

theorem c10_unknown_stage_processing_witness :
    statusFromStage "postprocess" = "processing" ∧
    "processing" ∉ specStatusEnum ∧
    (get_job (update_progress c10State "j10" "postprocess" "msg" 90 none).jobs "j10").map
      Job.status = some "processing" :=
  c10_unknown_stage_processing c10State "j10" "postprocess" "msg" 90
    { url := "u", status := "creating", progress := 85,
      current_stage := "evaluate", stage_message := "m" }
    (by decide) (by decide) (by decide)

theorem restoreStep_jobs_ne (s : JMState) (p : String × Job) (job_id : String)
    (h : p.1 ≠ job_id) :
    get_job (restoreStep s p).jobs job_id = get_job s.jobs job_id := by
  unfold restoreStep db_fail_job
  split
  · show get_job (updateRow s.jobs p.1
        (fun j => { j with status := "failed", error_message := some restartMessage }))
        job_id = get_job s.jobs job_id
    exact get_job_updateRow_ne s.jobs job_id p.1 _ (Ne.symm h)
  · rfl

theorem foldl_restoreStep_frame (L : List (String × Job)) (s : JMState) (job_id : String)
    (h : ∀ p ∈ L, p.1 ≠ job_id) :
    get_job ((L.foldl restoreStep s).jobs) job_id = get_job s.jobs job_id := by
  induction L generalizing s with
  | nil => rfl
  | cons p t ih =>
    rw [List.foldl_cons, ih _ (fun q hq => h q (List.mem_cons_of_mem p hq))]
    exact restoreStep_jobs_ne s p job_id (h p (List.mem_cons_self p t))

theorem foldl_restoreStep_lookup (L : List (String × Job)) (s : JMState)
    (hnd : (L.map Prod.fst).Nodup)
    (hL : ∀ p ∈ L, get_job s.jobs p.1 = some p.2)
    (job_id : String) (job : Job) (hmem : (job_id, job) ∈ L) :
    get_job ((L.foldl restoreStep s).jobs) job_id =
      some (if staleStatuses.contains job.status
            then { job with status := "failed", error_message := some restartMessage }
            else job) := by
  induction L generalizing s with
  | nil => cases hmem
  | cons p t ih =>
    have hnd' : p.1 ∉ t.map Prod.fst ∧ (t.map Prod.fst).Nodup :=
      List.nodup_cons.mp (by simpa using hnd)
    rcases List.mem_cons.mp hmem with he | hmem'
    · cases he
      rw [List.foldl_cons]
      have hframe : ∀ q ∈ t, q.1 ≠ job_id := by
        intro q hq heq
        exact hnd'.1 (by simpa [heq] using List.mem_map_of_mem Prod.fst hq)
      rw [foldl_restoreStep_frame t _ job_id hframe]
      have hj : get_job s.jobs job_id = some job := hL (job_id, job) (List.mem_cons_self _ t)
      unfold restoreStep db_fail_job
      by_cases hst : staleStatuses.contains job.status = true
      · simp only [hst, if_true]
        rw [get_job_updateRow_self, hj]
        rfl
      · have hst' : staleStatuses.contains job.status = false := by
          simpa using hst
        rw [if_neg (by rw [hst']; exact Bool.false_ne_true)]
        rw [if_neg (by rw [hst']; exact Bool.false_ne_true)]
        exact hj
    · rw [List.foldl_cons]
      apply ih (restoreStep s p) hnd'.2 _ hmem'
      intro q hq
      have hne : p.1 ≠ q.1 := by
        intro he
        exact hnd'.1 (by simpa [← he] using List.mem_map_of_mem Prod.fst hq)
      rw [restoreStep_jobs_ne s p q.1 hne]
      exact hL q (List.mem_cons_of_mem p hq)

/-- C2 (amended): the recovery sweep keys on stored status, not on the
stage: after the sweep, a non-terminal job whose status was one of the
five in-flight statuses (`downloading`, `transcribing`, `extracting`,
`creating`, `uploading`) is `failed` with the fixed restart message; any
other non-terminal job (status `pending`, `awaiting_confirmation`, or
`processing`) is left unchanged in the store. -/
theorem c2_restore_spec (s : JMState) (job_id : String) (job : Job)
    (hnd : (s.jobs.map Prod.fst).Nodup)
    (hjob : get_job s.jobs job_id = some job)
    (hactive : terminalStatuses.contains job.status = false) :
    get_job (restore_active_jobs s).jobs job_id =
      some (if staleStatuses.contains job.status
            then { job with status := "failed", error_message := some restartMessage }
            else job) := by
  unfold restore_active_jobs
  apply foldl_restoreStep_lookup
  · unfold get_active_jobs
    rw [List.map_reverse, List.nodup_reverse]
    exact hnd.sublist ((List.filter_sublist _).map Prod.fst)
  · intro p hp
    have hmem : p ∈ s.jobs := (List.mem_filter.mp (List.mem_reverse.mp hp)).1
    cases p with
    | mk a b => exact get_job_mem_of_nodup s.jobs a b hnd hmem
  · apply List.mem_reverse.mpr
    apply List.mem_filter.mpr
    refine ⟨mem_of_get_job s.jobs job_id job hjob, ?_⟩
    show (!(terminalStatuses.contains job.status)) = true
    rw [hactive]
    rfl

def c2Job : Job :=
  { url := "http://v/2", status := "awaiting_confirmation", progress := 90,
    current_stage := "preview", stage_message := "Waiting for your confirmation..." }
def c2State : JMState := { jobs := [("j2", c2Job)], history := [] }

/-- C2 counterexample: a non-terminal job whose stage is `preview`
(anything but `pending`), stored with status `awaiting_confirmation`,
is NOT marked failed by the startup sweep: it survives unchanged, because
the sweep keys on the five in-flight statuses rather than the stage. -/
theorem c2_awaiting_confirmation_survives :
    c2Job.current_stage = "preview" ∧
    c2Job.current_stage ≠ "pending" ∧
    terminalStatuses.contains c2Job.status = false ∧
    get_job (restore_active_jobs c2State).jobs "j2" = some c2Job ∧
    (get_job (restore_active_jobs c2State).jobs "j2").map Job.status ≠ some "failed" :=
  ⟨rfl, by decide, rfl, rfl, by decide⟩

def c2wJob : Job := { url := "u", status := "transcribing", progress := 40,
                      current_stage := "transcribe", stage_message := "m" }
def c2wState : JMState := { jobs := [("jw", c2wJob)], history := [] }

theorem c2_restore_spec_witness :
    get_job (restore_active_jobs c2wState).jobs "jw" =
      some (if staleStatuses.contains c2wJob.status
            then { c2wJob with status := "failed", error_message := some restartMessage }
            else c2wJob) :=
  c2_restore_spec c2wState "jw" c2wJob (by decide) (by decide) (by decide)

theorem gatePost_deleted (st : WaitState) (cands : List String) (img : Option String)
    (dbEnd : Option PendingDB) (memPop : Option PendingMem) :
    (gatePost st cands img dbEnd memPop).pending_deleted = true := by
  unfold gatePost
  repeat' split
  all_goals simp [apply_ite GateResult.pending_deleted]

theorem confirmationGate_deleted (eventAt : Nat → Bool) (dbAt : Nat → Option PendingDB)
    (cancelAt : Nat → Bool) (best : Int) (cands : List String) (img : Option String)
    (dbEnd : Option PendingDB) (memPop : Option PendingMem) :
    (confirmationGate eventAt dbAt cancelAt best cands img dbEnd memPop).pending_deleted =
      true := by
  unfold confirmationGate
  cases waitLoop eventAt dbAt cancelAt best with
  | earlyReturn st => rfl
  | broke st => exact gatePost_deleted st cands img dbEnd memPop
  | timedOut st => exact gatePost_deleted st cands img dbEnd memPop

theorem waitLoopAux_silent (eventAt : Nat → Bool) (dbAt : Nat → Option PendingDB)
    (cancelAt : Nat → Bool) (best : Int)
    (hE : ∀ t, eventAt t = false)
    (hD : ∀ t d, dbAt t = some d → d.status = "pending")
    (hC : ∀ t, cancelAt t = false) :
    ∀ (fuel : Nat) (st : WaitState),
      waitLoopAux eventAt dbAt cancelAt best fuel st =
        WaitExit.timedOut { st with elapsed := st.elapsed + fuel } := by
  intro fuel
  induction fuel with
  | zero =>
    intro st
    simp [waitLoopAux]
  | succ n ih =>
    intro st
    rw [show st.elapsed + (n + 1) = st.elapsed + 1 + n by omega]
    simp only [waitLoopAux]
    rw [hE st.elapsed]
    rw [if_neg Bool.false_ne_true]
    cases hdb : dbAt st.elapsed with
    | none =>
      rw [hC (st.elapsed + 1)]
      rw [if_neg Bool.false_ne_true]
      exact ih { st with elapsed := st.elapsed + 1 }
    | some d =>
      have hs : d.status = "pending" := hD st.elapsed d hdb
      simp only [hs]
      rw [if_neg (by decide), if_neg (by decide), if_neg (by decide)]
      rw [hC (st.elapsed + 1)]
      rw [if_neg Bool.false_ne_true]
      exact ih { st with elapsed := st.elapsed + 1 }

/-- C6 (amended): when the wait observes no resolution at all — the
confirmation event never set, the PendingUpload absent or still `pending`
at every poll, and the job not cancelled — the loop exhausts the
300-second window and the job is finalized `failed` with the fixed
"Upload confirmation timed out" error; and on every gate path, whatever
the observations, the PendingUpload record is deleted afterwards.  (If a
poll observes the record already resolved as `expired`, the pipeline
instead finalizes the job as cancelled: see the counterexample.) -/
theorem c6_timeout_fails_job (s : JMState) (job_id : String) (job : Job)
    (eventAt : Nat → Bool) (dbAt : Nat → Option PendingDB) (cancelAt : Nat → Bool)
    (best : Int) (cands : List String) (img : Option String)
    (dbEnd : Option PendingDB) (memPop : Option PendingMem)
    (hE : ∀ t, eventAt t = false)
    (hD : ∀ t d, dbAt t = some d → d.status = "pending")
    (hC : ∀ t, cancelAt t = false)
    (hjob : get_job s.jobs job_id = some job) :
    (runGate s job_id eventAt dbAt cancelAt best cands img dbEnd memPop).2.outcome =
        GateOutcome.failTimeout ∧
    (get_job (runGate s job_id eventAt dbAt cancelAt best cands img dbEnd
        memPop).1.jobs job_id).map Job.status = some "failed" ∧
    (get_job (runGate s job_id eventAt dbAt cancelAt best cands img dbEnd
        memPop).1.jobs job_id).bind Job.error_message =
      some "Upload confirmation timed out" ∧
    (runGate s job_id eventAt dbAt cancelAt best cands img dbEnd
        memPop).2.pending_deleted = true ∧
    (∀ (eA : Nat → Bool) (dA : Nat → Option PendingDB) (cA : Nat → Bool)
        (dbE : Option PendingDB) (mP : Option PendingMem),
      (confirmationGate eA dA cA best cands img dbE mP).pending_deleted = true) := by
  have hloop : waitLoop eventAt dbAt cancelAt best =
      WaitExit.timedOut { elapsed := timeout_seconds, confirmed := false,
                          db_confirmed := false, selected_idx := best } := by
    unfold waitLoop
    rw [waitLoopAux_silent eventAt dbAt cancelAt best hE hD hC]
    rfl
  have hgate : confirmationGate eventAt dbAt cancelAt best cands img dbEnd memPop =
      { outcome := GateOutcome.failTimeout, pending_deleted := true } := by
    unfold confirmationGate
    rw [hloop]
    rfl
  have hrun : runGate s job_id eventAt dbAt cancelAt best cands img dbEnd memPop =
      (fail_job s job_id "Upload confirmation timed out",
       { outcome := GateOutcome.failTimeout, pending_deleted := true }) := by
    unfold runGate
    rw [hgate]
  rw [hrun]
  refine ⟨rfl, ?_, ?_, rfl, fun eA dA cA dbE mP => confirmationGate_deleted eA dA cA best cands img dbE mP⟩
  · rw [get_job_fail_job, hjob]
    rfl
  · rw [get_job_fail_job, hjob]
    rfl

def c6wJob : Job := { url := "u6", status := "awaiting_confirmation", progress := 90,
                      current_stage := "preview", stage_message := "m" }
def c6wState : JMState := { jobs := [("j6", c6wJob)], history := [] }

theorem c6_timeout_fails_job_witness :
    (runGate c6wState "j6" (fun _ => false) (fun _ => none) (fun _ => false) 0 [] none
        none none).2.outcome = GateOutcome.failTimeout ∧
    (get_job (runGate c6wState "j6" (fun _ => false) (fun _ => none) (fun _ => false) 0 []
        none none none).1.jobs "j6").map Job.status = some "failed" := by
  have h := c6_timeout_fails_job c6wState "j6" c6wJob (fun _ => false) (fun _ => none)
    (fun _ => false) 0 [] none none none (fun _ => rfl) (fun _ d hd => nomatch hd)
    (fun _ => rfl) rfl
  exact ⟨h.1, h.2.1⟩

def c6Job : Job :=
  { url := "http://v/6", status := "awaiting_confirmation", progress := 90,
    current_stage := "preview", stage_message := "Waiting for your confirmation..." }
def c6State : JMState := { jobs := [("j6c", c6Job)], history := [] }

/-- Pending record past its expiry, as resolved by the (spec-modelled)
expiry cleanup: status `expired`. -/
def c6ExpiredRec : PendingDB :=
  cleanup_expired_pending_uploads { status := "pending" } 301 300

/-- C6 counterexample: when the PendingUpload is resolved by expiry
(status `expired` — no confirm or cancel resolution ever arrived), the
pipeline does NOT finalize the owning job as `failed`/timed-out: the
`expired` poll breaks the loop before the window elapses and the
post-wait code takes the cancelled-by-user branch, so the job ends
`cancelled` with message "Upload cancelled by user". -/
theorem c6_expired_resolves_cancelled :
    c6ExpiredRec.status = "expired" ∧
    (runGate c6State "j6c" (fun _ => false) (fun _ => some c6ExpiredRec) (fun _ => false)
        0 [] none (some c6ExpiredRec) (some { selected_image_index := 0 })).2.outcome =
      GateOutcome.cancelledByUser ∧
    (runGate c6State "j6c" (fun _ => false) (fun _ => some c6ExpiredRec) (fun _ => false)
        0 [] none (some c6ExpiredRec) (some { selected_image_index := 0 })).2.outcome ≠
      GateOutcome.failTimeout ∧
    (get_job (runGate c6State "j6c" (fun _ => false) (fun _ => some c6ExpiredRec)
        (fun _ => false) 0 [] none (some c6ExpiredRec)
        (some { selected_image_index := 0 })).1.jobs "j6c").map Job.status =
      some "cancelled" :=
  ⟨rfl, rfl, by decide, rfl⟩

/-- C7: when the upload was confirmed through the in-memory handler with
an explicit selected image index that is a valid index into the candidate
list, the gate proceeds to upload using the candidate at that index — not
the auto-selected best one. -/
theorem c7_confirm_selected_index (eventAt : Nat → Bool) (dbAt : Nat → Option PendingDB)
    (cancelAt : Nat → Bool) (best selIdx : Int) (cands : List String)
    (img : Option String) (dbEnd : Option PendingDB) (m0 : PendingMem)
    (hE : eventAt 0 = true)
    (h0 : 0 ≤ selIdx)
    (hlt : selIdx < (cands.length : Int)) :
    confirmationGate eventAt dbAt cancelAt best cands img dbEnd
        (some (handle_confirm_upload m0 (some selIdx))) =
      { outcome := GateOutcome.proceed (some (cands.getD selIdx.toNat "")) selIdx,
        pending_deleted := true } := by
  have hlen : 0 < cands.length := by
    have h1 : (0 : Int) < (cands.length : Int) := lt_of_le_of_lt h0 hlt
    exact_mod_cast h1
  have hemp : cands.isEmpty = false := by
    cases cands with
    | nil => simp at hlen
    | cons a l => rfl
  have hloop : waitLoop eventAt dbAt cancelAt best =
      WaitExit.broke { elapsed := 0, confirmed := true, db_confirmed := false,
                       selected_idx := best } := by
    unfold waitLoop timeout_seconds
    rw [show (300 : Nat) = 299 + 1 from rfl]
    rw [waitLoopAux]
    rw [hE]
    rw [if_pos rfl]
  unfold confirmationGate
  rw [hloop]
  show gatePost _ cands img dbEnd _ = _
  simp [gatePost, handle_confirm_upload, hemp, h0, hlt, timeout_seconds]

theorem c7_confirm_selected_index_witness :
    confirmationGate (fun _ => true) (fun _ => none) (fun _ => false) 0
        ["c0", "c1", "c2", "c3"] none none
        (some (handle_confirm_upload { selected_image_index := 0 } (some 2))) =
      { outcome := GateOutcome.proceed (some "c2") 2, pending_deleted := true } :=
  c7_confirm_selected_index (fun _ => true) (fun _ => none) (fun _ => false) 0 2
    ["c0", "c1", "c2", "c3"] none none { selected_image_index := 0 }
    rfl (by decide) (by decide)

theorem complete_chain_spec (s : JMState) (job_id : String) (r : Recipe)
    (img : Option String) (tgt msg1 msg2 : String) (j : Job)
    (hjob : get_job s.jobs job_id = some j) :
    (get_job (update_progress (complete_job (update_progress s job_id "upload" msg1 95 none)
        job_id r img tgt) job_id "complete" msg2 100 none).jobs job_id).map Job.status =
      some "completed" ∧
    ∃ e, (update_progress (complete_job (update_progress s job_id "upload" msg1 95 none)
        job_id r img tgt) job_id "complete" msg2 100 none).history = s.history ++ [e] ∧
      e.output_target = some tgt ∧ e.status = "success" := by
  have hs1 : ∃ j1, get_job (update_progress s job_id "upload" msg1 95 none).jobs job_id =
      some j1 := by
    rw [get_job_update_progress]
    cases hc : is_cancelled s job_id
    · rw [if_neg Bool.false_ne_true, hjob]
      exact ⟨_, rfl⟩
    · rw [if_pos rfl, hjob]
      exact ⟨_, rfl⟩
  rcases hs1 with ⟨j1, hj1⟩
  have hs2 : (get_job (complete_job (update_progress s job_id "upload" msg1 95 none)
      job_id r img tgt).jobs job_id).map Job.status = some "completed" := by
    rw [get_job_complete_job, hj1]
    rfl
  constructor
  · rw [get_job_update_progress]
    cases hc : is_cancelled (complete_job (update_progress s job_id "upload" msg1 95 none)
        job_id r img tgt) job_id
    · rw [if_neg Bool.false_ne_true]
      rw [get_job_complete_job, hj1]
      rfl
    · rw [if_pos rfl]
      exact hs2
  · refine ⟨mkSuccessEntry job_id j1 r img tgt, ?_, rfl, rfl⟩
    rw [update_progress_history, complete_job_history, hj1, update_progress_history]

theorem fail_chain_spec (s : JMState) (job_id : String) (msg1 emsg : String) (j : Job)
    (hjob : get_job s.jobs job_id = some j) :
    (get_job (fail_job (update_progress s job_id "upload" msg1 95 none) job_id
        emsg).jobs job_id).map Job.status = some "failed" := by
  have hs1 : ∃ j1, get_job (update_progress s job_id "upload" msg1 95 none).jobs job_id =
      some j1 := by
    rw [get_job_update_progress]
    cases hc : is_cancelled s job_id
    · rw [if_neg Bool.false_ne_true, hjob]
      exact ⟨_, rfl⟩
    · rw [if_pos rfl, hjob]
      exact ⟨_, rfl⟩
  rcases hs1 with ⟨j1, hj1⟩
  rw [get_job_fail_job, hj1]
  rfl

/-- C9: with both upload targets configured, the job is finalized
`completed` whenever at least one of the two exports succeeds, and the
single history entry records exactly the succeeded targets; the job is
finalized `failed` only when both exports fail. -/
theorem c9_partial_export (s : JMState) (job_id : String) (j : Job) (r : Recipe)
    (img : Option String) (ot : String) (exc : String → Option String)
    (hjob : get_job s.jobs job_id = some j) :
    ((exc "tandoor" = none ∨ exc "mealie" = none) →
      (get_job (finalizeUploads s job_id r img true ot exc).jobs job_id).map
          Job.status = some "completed" ∧
      ∃ e, (finalizeUploads s job_id r img true ot exc).history = s.history ++ [e] ∧
        e.output_target = some (String.intercalate ", "
          (["tandoor", "mealie"].filter (fun t => (exc t).isNone))) ∧
        e.status = "success") ∧
    ((exc "tandoor").isSome = true ∧ (exc "mealie").isSome = true →
      (get_job (finalizeUploads s job_id r img true ot exc).jobs job_id).map
          Job.status = some "failed") := by
  constructor
  · intro hsucc
    cases ha : exc "tandoor" with
    | none =>
      cases hb : exc "mealie" with
      | none =>
        have hfil : ["tandoor", "mealie"].filter (fun t => (exc t).isNone) =
            ["tandoor", "mealie"] := by
          simp [ha, hb]
        have hfin : finalizeUploads s job_id r img true ot exc =
            update_progress (complete_job (update_progress s job_id "upload"
                "Uploading to Tandoor and Mealie..." 95 none) job_id r img
                (String.intercalate ", " ["tandoor", "mealie"]))
              job_id "complete"
              ("Recipe uploaded successfully to " ++
                String.intercalate ", " ["tandoor", "mealie"] ++ "!") 100 none := by
          unfold finalizeUploads
          simp only [show uploadTargets true ot = ["tandoor", "mealie"] from rfl,
            show exportResults exc ["tandoor", "mealie"] =
              [("tandoor", exc "tandoor"), ("mealie", exc "mealie")] from rfl, ha, hb]
          rfl
        rw [hfin, hfil]
        exact complete_chain_spec s job_id r img _ _ _ j hjob
      | some eb =>
        have hfil : ["tandoor", "mealie"].filter (fun t => (exc t).isNone) =
            ["tandoor"] := by
          simp [ha, hb]
        have hfin : finalizeUploads s job_id r img true ot exc =
            update_progress (complete_job (update_progress s job_id "upload"
                "Uploading to Tandoor and Mealie..." 95 none) job_id r img
                (String.intercalate ", " ["tandoor"]))
              job_id "complete"
              ("Recipe uploaded to " ++ String.intercalate ", " ["tandoor"] ++
                ". Failed: " ++ String.intercalate "; " ["mealie" ++ ": " ++ eb]) 100 none := by
          unfold finalizeUploads
          simp only [show uploadTargets true ot = ["tandoor", "mealie"] from rfl,
            show exportResults exc ["tandoor", "mealie"] =
              [("tandoor", exc "tandoor"), ("mealie", exc "mealie")] from rfl, ha, hb]
          rfl
        rw [hfin, hfil]
        exact complete_chain_spec s job_id r img _ _ _ j hjob
    | some ea =>
      cases hb : exc "mealie" with
      | none =>
        have hfil : ["tandoor", "mealie"].filter (fun t => (exc t).isNone) =
            ["mealie"] := by
          simp [ha, hb]
        have hfin : finalizeUploads s job_id r img true ot exc =
            update_progress (complete_job (update_progress s job_id "upload"
                "Uploading to Tandoor and Mealie..." 95 none) job_id r img
                (String.intercalate ", " ["mealie"]))
              job_id "complete"
              ("Recipe uploaded to " ++ String.intercalate ", " ["mealie"] ++
                ". Failed: " ++ String.intercalate "; " ["tandoor" ++ ": " ++ ea]) 100 none := by
          unfold finalizeUploads
          simp only [show uploadTargets true ot = ["tandoor", "mealie"] from rfl,
            show exportResults exc ["tandoor", "mealie"] =
              [("tandoor", exc "tandoor"), ("mealie", exc "mealie")] from rfl, ha, hb]
          rfl
        rw [hfin, hfil]
        exact complete_chain_spec s job_id r img _ _ _ j hjob
      | some eb =>
        exfalso
        rcases hsucc with h | h
        · rw [ha] at h
          cases h
        · rw [hb] at h
          cases h
  · rintro ⟨hta, htb⟩
    rw [Option.isSome_iff_exists] at hta htb
    rcases hta with ⟨ea, ha⟩
    rcases htb with ⟨eb, hb⟩
    have hfin : finalizeUploads s job_id r img true ot exc =
        fail_job (update_progress s job_id "upload"
            "Uploading to Tandoor and Mealie..." 95 none) job_id
          ("All uploads failed: " ++ String.intercalate "; "
            ["tandoor" ++ ": " ++ ea, "mealie" ++ ": " ++ eb]) := by
      unfold finalizeUploads
      simp only [show uploadTargets true ot = ["tandoor", "mealie"] from rfl,
        show exportResults exc ["tandoor", "mealie"] =
          [("tandoor", exc "tandoor"), ("mealie", exc "mealie")] from rfl, ha, hb]
      rfl
    rw [hfin]
    exact fail_chain_spec s job_id _ _ j hjob

def c9wJob : Job := { url := "u9", status := "uploading", progress := 95,
                      current_stage := "upload", stage_message := "m" }
def c9wState : JMState := { jobs := [("j9", c9wJob)], history := [] }
def c9wExc : String → Option String :=
  fun t => if t == "tandoor" then some "http 500" else none
def c9wExcBoth : String → Option String := fun _ => some "boom"

theorem c9_partial_export_witness :
    ((get_job (finalizeUploads c9wState "j9" { name := some "Stew" } none true "tandoor"
        c9wExc).jobs "j9").map Job.status = some "completed" ∧
      ∃ e, (finalizeUploads c9wState "j9" { name := some "Stew" } none true "tandoor"
          c9wExc).history = c9wState.history ++ [e] ∧
        e.output_target = some (String.intercalate ", "
          (["tandoor", "mealie"].filter (fun t => (c9wExc t).isNone))) ∧
        e.status = "success") ∧
    (get_job (finalizeUploads c9wState "j9" { name := some "Stew" } none true "tandoor"
        c9wExcBoth).jobs "j9").map Job.status = some "failed" :=
  ⟨(c9_partial_export c9wState "j9" c9wJob { name := some "Stew" } none "tandoor" c9wExc
      (by decide)).1 (Or.inr (by decide)),
   (c9_partial_export c9wState "j9" c9wJob { name := some "Stew" } none "tandoor" c9wExcBoth
      (by decide)).2 ⟨by decide, by decide⟩⟩
